import Mathlib

/-!
Shallow embedding of the manufacturing-quality-analysis pipeline
(`src/config.py`, `src/validation.py`, `src/kpi.py`, `src/preprocess.py`).

Modelling conventions:
* A table (pandas `DataFrame`) is a list of named columns of cells plus a
  row count; a cell is a rational number, a string, or `null` (pandas NaN).
* Machine floats are modelled by `ℚ`: the programs only use field
  arithmetic and order comparisons on them.  A float NaN is the `null`
  cell; a pandas comparison of NaN with a number is `False`, which the
  cell comparison helpers reproduce.  Aggregations (`sum`, `mean`, `min`,
  `max`, quantiles) skip `null` cells exactly as pandas skips NaN, and a
  statistic whose pandas value would be NaN (mean of an empty series,
  sample std of fewer than two values) is `none`.
* Python code that can raise (column subscription `df[c]` of a missing
  column, integer division by zero) is embedded in `Option`: `none` is a
  raised exception.
* Python `set` iteration order is unspecified; where the source turns a
  set into a list the model fixes first-occurrence order.  The sample
  standard deviation is carried as the sample variance (`var` fields):
  its square root is irrational, and the code only takes the square root
  at the very end, preserving definedness (NaN iff fewer than 2 samples).
-/

/-- One cell of a table: a number, a string, or missing (pandas NaN). -/
inductive Cell where
  | num (q : ℚ)
  | str (s : String)
  | null
deriving DecidableEq, Repr

/-- A table: named columns of cells plus the row count.  In any table
produced by pandas every column has length `nrows`. -/
structure DataFrame where
  nrows : ℕ
  cols : List (String × List Cell)
deriving DecidableEq, Repr

namespace DataFrame

/-- Model of `df.columns`. -/
def colNames (df : DataFrame) : List String := df.cols.map Prod.fst

/-- Model of `df[c]`: `some` series when the column exists, else `none`
(a `KeyError` in pandas). -/
def getCol (df : DataFrame) (c : String) : Option (List Cell) :=
  (df.cols.find? (fun p => decide (p.1 = c))).map Prod.snd

end DataFrame

/-- Is the cell missing (NaN)? -/
def Cell.isNull : Cell → Bool
  | .null => true
  | _ => false

/-- Numeric view of a cell. -/
def Cell.toNum : Cell → Option ℚ
  | .num q => some q
  | _ => none

/-- The numeric values of a series, skipping `null` (pandas drops NaN in
reductions). -/
def nums (s : List Cell) : List ℚ := s.filterMap Cell.toNum

/-- Model of `series.sum()`: pandas sums the non-NaN values. -/
def sumNums (s : List Cell) : ℚ := (nums s).sum

/-- Model of `series.min()` over non-NaN values; `none` models the pandas NaN result
on an all-NaN or empty series. -/
def seriesMin (s : List Cell) : Option ℚ := (nums s).min?

/-- Model of `series.max()` over non-NaN values. -/
def seriesMax (s : List Cell) : Option ℚ := (nums s).max?

/-- Model of `cell <= q` with pandas semantics: NaN (and the impossible
string-vs-number case) compares `False`. -/
def cellLe (c : Cell) (q : ℚ) : Bool :=
  match c with
  | .num x => decide (x ≤ q)
  | _ => false

/-- Model of `cell < q`, NaN compares `False`. -/
def cellLt (c : Cell) (q : ℚ) : Bool :=
  match c with
  | .num x => decide (x < q)
  | _ => false

/-- Model of `cell > q`, NaN compares `False`. -/
def cellGt (c : Cell) (q : ℚ) : Bool :=
  match c with
  | .num x => decide (x > q)
  | _ => false

/-- Model of `cell >= q`, NaN compares `False`. -/
def cellGe (c : Cell) (q : ℚ) : Bool :=
  match c with
  | .num x => decide (x ≥ q)
  | _ => false

/-- Plain rendering of a cell for report messages. -/
def Cell.render : Cell → String
  | .num q => toString q
  | .str s => s
  | .null => "nan"

/- ------------------------------------------------------------------ -/
/- `src/config.py`                                                    -/
/- ------------------------------------------------------------------ -/

def REQUIRED_COLUMNS : List String :=
  ["UDI", "Product ID", "Type",
   "Air temperature [K]", "Process temperature [K]",
   "Rotational speed [rpm]", "Torque [Nm]", "Tool wear [min]",
   "Machine failure", "TWF", "HDF", "PWF", "OSF", "RNF"]

def FAILURE_MODE_COLS : List String := ["TWF", "HDF", "PWF", "OSF", "RNF"]

def TARGET_COL : String := "Machine failure"

def VALID_TYPES : List String := ["L", "M", "H"]

/-- One entry of `VALIDATION_RULES`. -/
structure Rule where
  min : Option ℚ
  max : Option ℚ
  strict_positive : Bool
deriving DecidableEq, Repr

/-- Model of `VALIDATION_RULES`, in dict (insertion) iteration order.
A key absent from a rule dict (`rules.get` default) is `none` / `false`. -/
def VALIDATION_RULES : List (String × Rule) :=
  [("Torque [Nm]", ⟨some 0, none, false⟩),
   ("Tool wear [min]", ⟨some 0, none, false⟩),
   ("Rotational speed [rpm]", ⟨some 0, none, true⟩),
   ("Air temperature [K]", ⟨some 0, none, true⟩),
   ("Process temperature [K]", ⟨some 0, none, true⟩)]

/- ------------------------------------------------------------------ -/
/- `src/validation.py`                                                -/
/- ------------------------------------------------------------------ -/

/-- A diagnostic value stored in the `details` map of a result. -/
inductive Detail where
  | nat (n : ℕ)
  | optRat (q : Option ℚ)
  | strs (l : List String)
  | cells (l : List Cell)
  | cellMap (m : List (String × List Cell))
  | natMap (m : List (String × ℕ))
  | idxs (l : List ℕ)
deriving DecidableEq, Repr

/-- Model of `ValidationResult`: container for a single validation check result.
`status` is one of the strings `"PASS"`, `"WARN"`, `"FAIL"` as in the
source. -/
structure ValidationResult where
  check_name : String
  status : String
  message : String
  details : List (String × Detail)
deriving DecidableEq, Repr

/-- Model of `check_required_columns`: set difference required − actual.  The
Python `set` difference is materialised in the model in
`REQUIRED_COLUMNS` order. -/
def check_required_columns (df : DataFrame) : ValidationResult :=
  let actual_cols := df.colNames
  let missing := REQUIRED_COLUMNS.filter (fun c => decide (c ∉ actual_cols))
  if missing ≠ [] then
    { check_name := "Required Columns", status := "FAIL",
      message := s!"Missing {missing.length} required column(s).",
      details := [("missing_columns", Detail.strs missing)] }
  else
    { check_name := "Required Columns", status := "PASS",
      message := s!"All {REQUIRED_COLUMNS.length} required columns present.",
      details := [("column_count", Detail.nat REQUIRED_COLUMNS.length)] }

/-- Model of `check_type_domain`: observed `Type` values must lie in {L, M, H}.
`Series.unique()` is dedup in first-occurrence order. -/
def check_type_domain (df : DataFrame) : ValidationResult :=
  match df.getCol "Type" with
  | none =>
    { check_name := "Type Domain", status := "FAIL",
      message := "\x27Type\x27 column not found.", details := [] }
  | some s =>
    let actual_types := s.dedup
    let invalid := actual_types.filter (fun c => decide (c ∉ VALID_TYPES.map Cell.str))
    let invalid_rendered := String.intercalate ", " (invalid.map Cell.render)
    let actual_rendered := String.intercalate ", " (actual_types.map Cell.render)
    if invalid ≠ [] then
      { check_name := "Type Domain", status := "FAIL",
        message := s!"Invalid Type values found: {invalid_rendered}",
        details := [("invalid_values", Detail.cells invalid),
                    ("valid_values", Detail.strs VALID_TYPES)] }
    else
      { check_name := "Type Domain", status := "PASS",
        message := s!"All Type values are valid: {actual_rendered}",
        details := [("found_types", Detail.cells actual_types)] }

/-- One iteration of the loop in `check_numeric_ranges` (column `col`
with rule `rules`). -/
def range_check_one (df : DataFrame) (col : String) (rules : Rule) : ValidationResult :=
  match df.getCol col with
  | none =>
    { check_name := "Range Check: " ++ col, status := "WARN",
      message := s!"Column \x27{col}\x27 not found, skipping range check.",
      details := [] }
  | some series =>
    let minViolations : List String :=
      match rules.min with
      | some min_val =>
        if rules.strict_positive then
          let bad_count := series.countP (fun c => cellLe c min_val)
          if bad_count > 0 then [s!"{bad_count} values <= {min_val}"] else []
        else
          let bad_count := series.countP (fun c => cellLt c min_val)
          if bad_count > 0 then [s!"{bad_count} values < {min_val}"] else []
      | none => []
    let maxViolations : List String :=
      match rules.max with
      | some max_val =>
        let bad_count := series.countP (fun c => cellGt c max_val)
        if bad_count > 0 then [s!"{bad_count} values > {max_val}"] else []
      | none => []
    let violations := minViolations ++ maxViolations
    if violations ≠ [] then
      { check_name := "Range Check: " ++ col, status := "FAIL",
        message := String.intercalate "; " violations,
        details := [("min", Detail.optRat (seriesMin series)),
                    ("max", Detail.optRat (seriesMax series))] }
    else
      { check_name := "Range Check: " ++ col, status := "PASS",
        message := "All values within valid range.",
        details := [("min", Detail.optRat (seriesMin series)),
                    ("max", Detail.optRat (seriesMax series))] }

/-- Model of `check_numeric_ranges`: one sub-result per configured column. -/
def check_numeric_ranges (df : DataFrame) : List ValidationResult :=
  VALIDATION_RULES.map (fun p => range_check_one df p.1 p.2)

/-- Model of `check_binary_flags`: target and failure-mode columns must only hold
0/1.  A column absent from the table is skipped by the `if col in
self.df.columns` guard (it is neither checked nor reported). -/
def check_binary_flags (df : DataFrame) : ValidationResult :=
  let all_flag_cols := [TARGET_COL] ++ FAILURE_MODE_COLS
  let non_binary : List (String × List Cell) :=
    all_flag_cols.filterMap (fun col =>
      match df.getCol col with
      | none => none
      | some s =>
        let unique_vals := s.dedup
        if unique_vals.all (fun c => decide (c = Cell.num 0 ∨ c = Cell.num 1)) then none
        else some (col, unique_vals))
  if non_binary ≠ [] then
    { check_name := "Binary Flags", status := "FAIL",
      message := s!"{non_binary.length} column(s) have non-binary values.",
      details := [("non_binary_columns", Detail.cellMap non_binary)] }
  else
    { check_name := "Binary Flags", status := "PASS",
      message := s!"All {all_flag_cols.length} flag columns are binary (0/1).",
      details := [("columns_checked", Detail.strs all_flag_cols)] }

/-- Model of `check_failure_consistency`: rows with `Machine failure = 0` must
have every failure-mode flag 0.  Offending row indices are collected per
mode, concatenated, deduplicated (the Python `set`; the model fixes
first-occurrence order) and counted. -/
def check_failure_consistency (df : DataFrame) : ValidationResult :=
  match df.getCol TARGET_COL with
  | none =>
    { check_name := "Failure Consistency", status := "WARN",
      message := s!"\x27{TARGET_COL}\x27 column not found.", details := [] }
  | some tl =>
    let inconsistent_rows : List ℕ :=
      (FAILURE_MODE_COLS.flatMap (fun col =>
        match df.getCol col with
        | some ml =>
          ((tl.zip ml).enum.filter
            (fun p => decide (p.2.1 = Cell.num 0) && decide (p.2.2 = Cell.num 1))).map Prod.fst
        | none => [])).dedup
    let n_violations := inconsistent_rows.length
    if n_violations > 0 then
      { check_name := "Failure Consistency", status := "WARN",
        message := s!"{n_violations} row(s) have Machine failure=0 but a failure mode=1.",
        details := [("violation_count", Detail.nat n_violations),
                    ("sample_indices", Detail.idxs (inconsistent_rows.take 10))] }
    else
      { check_name := "Failure Consistency", status := "PASS",
        message := "All records are consistent (failure=0 implies all modes=0).",
        details := [] }

/-- Model of `check_null_values`: per-column null counts; any nonzero count is a
WARN. -/
def check_null_values (df : DataFrame) : ValidationResult :=
  let null_counts : List (String × ℕ) :=
    df.cols.map (fun p => (p.1, p.2.countP Cell.isNull))
  let cols_with_nulls := null_counts.filter (fun p => decide (p.2 > 0))
  if cols_with_nulls.length > 0 then
    { check_name := "Null Values", status := "WARN",
      message := s!"{cols_with_nulls.length} column(s) have null values.",
      details := [("null_counts", Detail.natMap cols_with_nulls)] }
  else
    { check_name := "Null Values", status := "PASS",
      message := "No null values found in any column.",
      details := [("total_rows", Detail.nat df.nrows)] }

/-- Model of `DataValidator`: the table under validation and the accumulated
result list. -/
structure DataValidator where
  df : DataFrame
  results : List ValidationResult
deriving DecidableEq, Repr

/-- Model of `self.results.append(result)`. -/
def append_result (v : DataValidator) (r : ValidationResult) : DataValidator :=
  { v with results := v.results ++ [r] }

/-- Model of `run_all_checks`: reset the result list, then run the checks in the
fixed source order, each appending its result(s). -/
def run_all_checks (v : DataValidator) : DataValidator :=
  let v0 : DataValidator := { v with results := [] }
  let v1 := append_result v0 (check_required_columns v0.df)
  let v2 := append_result v1 (check_type_domain v1.df)
  let v3 := (check_numeric_ranges v2.df).foldl append_result v2
  let v4 := append_result v3 (check_binary_flags v3.df)
  let v5 := append_result v4 (check_failure_consistency v4.df)
  append_result v5 (check_null_values v5.df)

/- ------------------------------------------------------------------ -/
/- `src/preprocess.py`                                                -/
/- ------------------------------------------------------------------ -/

/-- Row-wise subtraction of two cells; any operand that is NaN (or not a
number) yields NaN, as in pandas. -/
def cellSub : Cell → Cell → Cell
  | .num a, .num b => .num (a - b)
  | _, _ => .null

/-- Model of `df[name] = vals`: pandas replaces the column when the name exists
and appends a new column otherwise. -/
def setCol (df : DataFrame) (name : String) (vals : List Cell) : DataFrame :=
  if name ∈ df.colNames then
    { df with cols := df.cols.map (fun p => if p.1 = name then (p.1, vals) else p) }
  else
    { df with cols := df.cols ++ [(name, vals)] }

/-- Model of `add_temp_delta`: copy the table (the model is pure, so the copy is
the identity) and add `Temp_Delta [K]` = process − air temperature.
`none` is the `KeyError` raised when a temperature column is absent. -/
def add_temp_delta (df : DataFrame) : Option DataFrame := do
  let proc ← df.getCol "Process temperature [K]"
  let air ← df.getCol "Air temperature [K]"
  some (setCol df "Temp_Delta [K]" ((proc.zip air).map (fun p => cellSub p.1 p.2)))

/-- Linear interpolation between the order statistics at positions `i`
and `i + 1` of a sorted list (the last entry when `i` is already the
last position). -/
def interpAt (s : List ℚ) (i : ℕ) (frac : ℚ) : ℚ :=
  if i + 1 < s.length then s.getD i 0 + frac * (s.getD (i + 1) 0 - s.getD i 0)
  else s.getD (s.length - 1) 0

/-- Linear-interpolation quantile of an already sorted, nonempty list
(`numpy`/pandas default method, for `0 ≤ q ≤ 1`): the virtual index is
`q * (n - 1)`; the value interpolates between the two neighbouring
order statistics. -/
def quantileOfSorted (s : List ℚ) (q : ℚ) : ℚ :=
  let pos : ℚ := q * ((s.length : ℚ) - 1)
  let i : ℕ := (⌊pos⌋).toNat
  interpAt s i (pos - (i : ℚ))

/-- Model of `Series.quantile(q)` on the numeric values of a series. -/
def quantile (xs : List ℚ) (q : ℚ) : ℚ :=
  quantileOfSorted (List.insertionSort (fun a b => a ≤ b) xs) q

/-- The `assign_category` closure of `categorize_by_quantiles`. -/
def assign_category (low_val high_val x : ℚ) : String :=
  if x ≤ low_val then "Low"
  else if x ≥ high_val then "High"
  else "Medium"

/-- Model of `categorize_by_quantiles`: label every element of a numeric series
Low / Medium / High against the two quantile thresholds. -/
def categorize_by_quantiles (series : List ℚ) (q_low q_high : ℚ) : List String :=
  let low_val := quantile series q_low
  let high_val := quantile series q_high
  series.map (assign_category low_val high_val)

/- ------------------------------------------------------------------ -/
/- `src/kpi.py`                                                       -/
/- ------------------------------------------------------------------ -/

/-- Result dict of `compute_overall_failure_rate`. -/
structure OverallFailureRate where
  total_records : ℕ
  failure_count : ℤ
  failure_rate : ℚ
  failure_rate_pct : ℚ
deriving DecidableEq, Repr

/-- Model of `compute_overall_failure_rate`: `failures / total` with an explicit
0.0 default when the table is empty.  `int(failures)` is `⌊·⌋`; the two
agree because flag sums are nonnegative integers. -/
def compute_overall_failure_rate (df : DataFrame) : Option OverallFailureRate := do
  let t ← df.getCol TARGET_COL
  let total := df.nrows
  let failures := sumNums t
  let rate : ℚ := if total > 0 then failures / (total : ℚ) else 0
  some { total_records := total, failure_count := ⌊failures⌋,
         failure_rate := rate, failure_rate_pct := rate * 100 }

/-- Python `/`: raises `ZeroDivisionError` (`none`) on a zero divisor. -/
def pydiv (a b : ℚ) : Option ℚ :=
  if b = 0 then none else some (a / b)

/-- One row of the `compute_failure_mode_counts` output. -/
structure ModeRecord where
  failure_mode : String
  count : ℤ
  pct_of_failures : ℚ
  pct_of_total : ℚ
deriving DecidableEq, Repr

/-- One iteration of the `for mode in FAILURE_MODE_COLS` loop of
`compute_failure_mode_counts`. -/
def mode_record (df : DataFrame) (total_failures : ℚ) (total_records : ℕ)
    (mode : String) : Option ModeRecord := do
  let mcol ← df.getCol mode
  let count : ℤ := ⌊sumNums mcol⌋
  let pct_of_failures : ℚ :=
    if total_failures > 0 then (count : ℚ) / total_failures * 100 else 0
  let divres ← pydiv (count : ℚ) (total_records : ℚ)
  some { failure_mode := mode, count := count,
         pct_of_failures := pct_of_failures,
         pct_of_total := divres * 100 }

/-- Model of `compute_failure_mode_counts`: per failure mode, the flag sum, its
percentage of total failures (0.0 when there are no failures) and its
percentage of total records.  The latter division is unguarded in the
source, so an empty table raises (`none`). -/
def compute_failure_mode_counts (df : DataFrame) : Option (List ModeRecord) := do
  let t ← df.getCol TARGET_COL
  FAILURE_MODE_COLS.mapM (mode_record df (sumNums t) df.nrows)

/-- One segment dict built by the `segment_stats` closure of
`compute_quantile_failure_rates`. -/
structure SegmentStats where
  segment : String
  count : ℕ
  failure_count : ℤ
  failure_rate : ℚ
  failure_rate_pct : ℚ
deriving DecidableEq, Repr

/-- The `segment_stats` closure: `subset = df[mask]` restricted to the
analysed column `s` and target column `t`. -/
def segment_stats (s t : List Cell) (mask : Cell → Bool) (label : String) : SegmentStats :=
  let n := s.countP mask
  let failures := sumNums (((s.zip t).filter (fun p => mask p.1)).map Prod.snd)
  let rate : ℚ := if n > 0 then failures / (n : ℚ) else 0
  { segment := label, count := n, failure_count := ⌊failures⌋,
    failure_rate := rate, failure_rate_pct := rate * 100 }

/-- Result dict of `compute_quantile_failure_rates`. -/
structure QuantileFailureRates where
  column : String
  q_low : ℚ
  q_low_value : ℚ
  q_high : ℚ
  q_high_value : ℚ
  segments : List SegmentStats
deriving DecidableEq, Repr

/-- Model of `compute_quantile_failure_rates`: thresholds at the two quantiles,
then segment masks Low (`value ≤ low`), High (`value ≥ high`) and
Medium (neither).  The source formats the thresholds into the Low/High
labels with `:.2f`; the model renders the exact rational instead. -/
def compute_quantile_failure_rates (df : DataFrame) (column : String)
    (q_low q_high : ℚ) : Option QuantileFailureRates := do
  let s ← df.getCol column
  let t ← df.getCol TARGET_COL
  let low_threshold := quantile (nums s) q_low
  let high_threshold := quantile (nums s) q_high
  let low_mask := fun c => cellLe c low_threshold
  let high_mask := fun c => cellGe c high_threshold
  let mid_mask := fun c => !low_mask c && !high_mask c
  some { column := column, q_low := q_low, q_low_value := low_threshold,
         q_high := q_high, q_high_value := high_threshold,
         segments :=
           [segment_stats s t low_mask ("Low (≤" ++ toString low_threshold ++ ")"),
            segment_stats s t mid_mask "Medium",
            segment_stats s t high_mask ("High (≥" ++ toString high_threshold ++ ")")] }

/-- Model of `Series.mean()` of the numeric values; NaN (`none`) when empty. -/
def listMean (l : List ℚ) : Option ℚ :=
  if l.length = 0 then none else some (l.sum / (l.length : ℚ))

/-- Model of `Series.median()`: middle order statistic, or the average of the two
middle ones; NaN (`none`) when empty. -/
def listMedian (l : List ℚ) : Option ℚ :=
  let s := List.insertionSort (fun a b => a ≤ b) l
  let n := s.length
  if n = 0 then none
  else if n % 2 = 1 then some (s.getD (n / 2) 0)
  else some ((s.getD (n / 2 - 1) 0 + s.getD (n / 2) 0) / 2)

/-- Sample variance (the square of `Series.std()`, which uses the n−1
denominator); NaN (`none`) on fewer than two values. -/
def listVar (l : List ℚ) : Option ℚ :=
  let n := l.length
  if n < 2 then none
  else
    let m := l.sum / (n : ℚ)
    some ((l.map (fun x => (x - m) ^ 2)).sum / ((n : ℚ) - 1))

/-- The `overall` stats dict of `compute_temp_delta_stats`.  `var` fields
carry the square of the reported std (see the header note). -/
structure DeltaOverall where
  mean : Option ℚ
  median : Option ℚ
  var : Option ℚ
  min : Option ℚ
  max : Option ℚ
deriving DecidableEq, Repr

/-- The per-failure-status stats dicts of `compute_temp_delta_stats`. -/
structure DeltaSplit where
  count : ℕ
  mean : Option ℚ
  median : Option ℚ
  var : Option ℚ
deriving DecidableEq, Repr

/-- Return value of `compute_temp_delta_stats`: either the error dict
(`{"error": ...}`) or the statistics dicts. -/
inductive TempDeltaStats where
  | error (msg : String)
  | ok (overall : DeltaOverall) (failed : DeltaSplit) (not_failed : DeltaSplit)
deriving DecidableEq, Repr

/-- Model of `compute_temp_delta_stats`: a missing derived column yields the
descriptive error dict; otherwise statistics overall and split by
failure status.  `none` is the `KeyError` on a missing target column
(the split happens after the guard). -/
def compute_temp_delta_stats (df : DataFrame) : Option TempDeltaStats :=
  match df.getCol "Temp_Delta [K]" with
  | none =>
    some (.error "Column \x27Temp_Delta [K]\x27 not found. Run preprocessing first.")
  | some dcol => do
    let t ← df.getCol TARGET_COL
    let failed := ((dcol.zip t).filter (fun p => decide (p.2 = Cell.num 1))).map Prod.fst
    let not_failed := ((dcol.zip t).filter (fun p => decide (p.2 = Cell.num 0))).map Prod.fst
    some (.ok
      { mean := listMean (nums dcol), median := listMedian (nums dcol),
        var := listVar (nums dcol), min := seriesMin dcol, max := seriesMax dcol }
      { count := failed.length, mean := listMean (nums failed),
        median := listMedian (nums failed), var := listVar (nums failed) }
      { count := not_failed.length, mean := listMean (nums not_failed),
        median := listMedian (nums not_failed), var := listVar (nums not_failed) })

/-- One row of the `compute_failure_rate_by_type` output. -/
structure TypeGroup where
  type : Cell
  count : ℕ
  failure_count : ℚ
  failure_rate : ℚ
  failure_rate_pct : ℚ
deriving DecidableEq, Repr

/-- Total order on cells used for the groupby key sort (pandas sorts
group keys; `Type` keys are strings, other constructors are ordered
arbitrarily but totally). -/
def cellKeyLe (a b : Cell) : Prop :=
  match a, b with
  | .num x, .num y => x ≤ y
  | .num _, _ => True
  | .str _, .num _ => False
  | .str x, .str y => x ≤ y
  | .str _, .null => True
  | .null, .null => True
  | .null, _ => False

instance : DecidableRel cellKeyLe := fun a b =>
  match a, b with
  | .num x, .num y => inferInstanceAs (Decidable (x ≤ y))
  | .num _, .str _ => Decidable.isTrue trivial
  | .num _, .null => Decidable.isTrue trivial
  | .str _, .num _ => Decidable.isFalse (fun h => h)
  | .str x, .str y => inferInstanceAs (Decidable (x ≤ y))
  | .str _, .null => Decidable.isTrue trivial
  | .null, .null => Decidable.isTrue trivial
  | .null, .num _ => Decidable.isFalse (fun h => h)
  | .null, .str _ => Decidable.isFalse (fun h => h)

/-- The `type_order` dict `{"L": 0, "M": 1, "H": 2}`; `none` is the NaN
that `Series.map` produces for a key absent from the dict. -/
def type_order (c : Cell) : Option ℕ :=
  if c = .str "L" then some 0
  else if c = .str "M" then some 1
  else if c = .str "H" then some 2
  else none

/-- Sort key for `sort_values("sort_key")`: pandas places NaN keys last
(`na_position="last"`), preserving their relative order; known keys are
0, 1, 2, so NaN behaves as the largest key. -/
def sortKeyVal (c : Cell) : ℕ := (type_order c).getD 3

/-- Model of `compute_failure_rate_by_type`: group rows by `Type` (pandas drops
NaN group keys and sorts the remaining keys), aggregate count and
failure sum per group, then re-sort by the `type_order` map with NaN
keys last.  `none` is the `KeyError` on a missing column. -/
def compute_failure_rate_by_type (df : DataFrame) : Option (List TypeGroup) := do
  let ty ← df.getCol "Type"
  let t ← df.getCol TARGET_COL
  let rows := ty.zip t
  let keys := List.insertionSort cellKeyLe ((ty.filter (fun c => !c.isNull)).dedup)
  let grouped := keys.map (fun k =>
    let grp := rows.filter (fun p => decide (p.1 = k))
    let cnt := grp.length
    let fc := sumNums (grp.map Prod.snd)
    let rate := fc / (cnt : ℚ)
    ({ type := k, count := cnt, failure_count := fc,
       failure_rate := rate, failure_rate_pct := rate * 100 } : TypeGroup))
  some (List.insertionSort (fun a b => sortKeyVal a.type ≤ sortKeyVal b.type) grouped)

/- ------------------------------------------------------------------ -/
/- Concrete sample tables used to instantiate the theorems            -/
/- ------------------------------------------------------------------ -/

/-- A table with no columns and no rows. -/
def noColsDf : DataFrame := ⟨0, []⟩

/-- An empty (0-row) table that still has the target and failure-mode
columns. -/
def emptyFlagsDf : DataFrame :=
  ⟨0, [("Machine failure", []), ("TWF", []), ("HDF", []),
       ("PWF", []), ("OSF", []), ("RNF", [])]⟩

/-- A 2-row table whose `Type` column holds the unknown value `"X"`. -/
def unknownTypeDf : DataFrame :=
  ⟨2, [("Type", [Cell.str "X", Cell.str "L"]),
       ("Machine failure", [Cell.num 1, Cell.num 0])]⟩

/-- A 1-row table whose only `Type` value is the unknown `"X"`. -/
def soloUnknownTypeDf : DataFrame :=
  ⟨1, [("Type", [Cell.str "X"]), ("Machine failure", [Cell.num 1])]⟩

/-- A 0-row table holding every required column. -/
def fullDf : DataFrame := ⟨0, REQUIRED_COLUMNS.map (fun c => (c, []))⟩

/-- A 2-row table with a numeric column `"c"` and the target column. -/
def twoRowDf : DataFrame :=
  ⟨2, [("c", [Cell.num 1, Cell.num 2]),
       ("Machine failure", [Cell.num 0, Cell.num 1])]⟩

/-- A 1-row table with the two temperature columns. -/
def tempDf : DataFrame :=
  ⟨1, [("Air temperature [K]", [Cell.num 300]),
       ("Process temperature [K]", [Cell.num 310]),
       ("Machine failure", [Cell.num 0])]⟩

/-- A 1-row table with zero failures and every flag column present. -/
def oneRowFlagsDf : DataFrame :=
  ⟨1, [("Machine failure", [Cell.num 0]), ("TWF", [Cell.num 0]),
       ("HDF", [Cell.num 0]), ("PWF", [Cell.num 0]),
       ("OSF", [Cell.num 0]), ("RNF", [Cell.num 0])]⟩

/-- A 1-row table that already has the derived delta column. -/
def deltaDf : DataFrame :=
  ⟨1, [("Temp_Delta [K]", [Cell.num 10]), ("Machine failure", [Cell.num 0])]⟩

/-- Dropping a set of columns from a table (used to state the C6 removal
property). -/
def dropCols (df : DataFrame) (rem : List String) : DataFrame :=
  { df with cols := df.cols.filter (fun p => decide (p.1 ∉ rem)) }

/-- Did `compute_temp_delta_stats` return the error dict? -/
def TempDeltaStats.isError : TempDeltaStats → Bool
  | .error _ => true
  | .ok _ _ _ => false

instance : IsTotal TypeGroup (fun a b => sortKeyVal a.type ≤ sortKeyVal b.type) :=
  ⟨fun a b => Nat.le_total (sortKeyVal a.type) (sortKeyVal b.type)⟩

instance : IsTrans TypeGroup (fun a b => sortKeyVal a.type ≤ sortKeyVal b.type) :=
  ⟨fun _ _ _ h1 h2 => Nat.le_trans h1 h2⟩

/-- The concrete output of `compute_quantile_failure_rates` on
`twoRowDf`, used by the C4 witness. -/
def qfrSample : QuantileFailureRates :=
  (compute_quantile_failure_rates twoRowDf "c" 0 1).getD
    ⟨"", 0, 0, 0, 0, []⟩

/-- The concrete output of `compute_failure_mode_counts` on
`oneRowFlagsDf`, used by the C5 witness. -/
def modeRecsSample : List ModeRecord :=
  (compute_failure_mode_counts oneRowFlagsDf).getD []

/-- The concrete by-Type output on `unknownTypeDf`, used by the C8
witness. -/
def byTypeSample : List TypeGroup :=
  (compute_failure_rate_by_type unknownTypeDf).getD []

/-- The concrete output of `add_temp_delta` on `tempDf`, used by the C9
witness. -/
def tempDeltaDf : DataFrame := (add_temp_delta tempDf).getD noColsDf

/- ------------------------------------------------------------------ -/
/- Helper lemmas                                                      -/
/- ------------------------------------------------------------------ -/

theorem getCol_eq_none_iff (df : DataFrame) (c : String) :
    df.getCol c = none ↔ c ∉ df.colNames := by
  simp only [DataFrame.getCol, DataFrame.colNames, Option.map_eq_none',
    List.find?_eq_none, List.mem_map, decide_eq_true_eq]
  constructor
  · rintro h ⟨p, hp, rfl⟩
    exact h p hp rfl
  · rintro h p hp rfl
    exact h ⟨p, hp, rfl⟩

theorem check_required_columns_check_name (df : DataFrame) :
    (check_required_columns df).check_name = "Required Columns" := by
  simp only [check_required_columns]
  split <;> rfl

theorem check_type_domain_check_name (df : DataFrame) :
    (check_type_domain df).check_name = "Type Domain" := by
  simp only [check_type_domain]
  cases df.getCol "Type" with
  | none => rfl
  | some s =>
    simp only []
    split <;> rfl

theorem range_check_one_check_name (df : DataFrame) (col : String) (rule : Rule) :
    (range_check_one df col rule).check_name = "Range Check: " ++ col := by
  simp only [range_check_one]
  cases df.getCol col with
  | none => rfl
  | some s =>
    simp only []
    repeat' split
    all_goals rfl

theorem check_binary_flags_check_name (df : DataFrame) :
    (check_binary_flags df).check_name = "Binary Flags" := by
  simp only [check_binary_flags]
  split <;> rfl

theorem check_failure_consistency_check_name (df : DataFrame) :
    (check_failure_consistency df).check_name = "Failure Consistency" := by
  simp only [check_failure_consistency]
  cases df.getCol TARGET_COL with
  | none => rfl
  | some tl =>
    simp only []
    split <;> rfl

theorem check_null_values_check_name (df : DataFrame) :
    (check_null_values df).check_name = "Null Values" := by
  simp only [check_null_values]
  split <;> rfl

theorem run_all_checks_results (v : DataValidator) :
    (run_all_checks v).results =
      [check_required_columns v.df, check_type_domain v.df] ++
      check_numeric_ranges v.df ++
      [check_binary_flags v.df, check_failure_consistency v.df,
       check_null_values v.df] := by
  simp [run_all_checks, append_result, check_numeric_ranges, VALIDATION_RULES]

/- ------------------------------------------------------------------ -/
/- Claim theorems                                                     -/
/- ------------------------------------------------------------------ -/

/-- C1: for every validator state, `run_all_checks` discards the prior
result list and returns exactly one result per `VALIDATION_RULES` column
plus five other fixed checks, in the fixed order Required Columns, Type
Domain, the Numeric Range sub-checks (in configuration order), Binary
Flags, Failure Consistency, Null Values; the count is
`VALIDATION_RULES.length + 5 = 10` with the shipped configuration. -/
theorem run_all_checks_fixed_battery (v : DataValidator) :
    (run_all_checks v).results.map ValidationResult.check_name =
      ["Required Columns", "Type Domain",
       "Range Check: Torque [Nm]", "Range Check: Tool wear [min]",
       "Range Check: Rotational speed [rpm]", "Range Check: Air temperature [K]",
       "Range Check: Process temperature [K]",
       "Binary Flags", "Failure Consistency", "Null Values"] ∧
    (run_all_checks v).results.length = VALIDATION_RULES.length + 5 ∧
    VALIDATION_RULES.length + 5 = 10 := by
  have hnames : (run_all_checks v).results.map ValidationResult.check_name =
      ["Required Columns", "Type Domain",
       "Range Check: Torque [Nm]", "Range Check: Tool wear [min]",
       "Range Check: Rotational speed [rpm]", "Range Check: Air temperature [K]",
       "Range Check: Process temperature [K]",
       "Binary Flags", "Failure Consistency", "Null Values"] := by
    rw [run_all_checks_results]
    simp only [check_numeric_ranges, VALIDATION_RULES, List.map_cons, List.map_nil,
      List.map_append, List.cons_append, List.nil_append,
      check_required_columns_check_name, check_type_domain_check_name,
      range_check_one_check_name, check_binary_flags_check_name,
      check_failure_consistency_check_name, check_null_values_check_name]
    rfl
  refine ⟨hnames, ?_, rfl⟩
  have := congrArg List.length hnames
  simpa using this

/-- C2 counterexample: on a table with no columns the target and every
failure-mode column are absent, yet `check_binary_flags` reports PASS,
not WARN — the `if col in self.df.columns` guard silently skips missing
columns instead of degrading the check. -/
theorem check_binary_flags_missing_is_pass :
    noColsDf.getCol TARGET_COL = none ∧
    (∀ m ∈ FAILURE_MODE_COLS, noColsDf.getCol m = none) ∧
    (check_binary_flags noColsDf).status = "PASS" ∧
    ¬(check_binary_flags noColsDf).status = "WARN" := by decide

/-- C2 (amended): a Numeric Range sub-check WARNs when its column is
missing, Failure Consistency WARNs when the target column is missing,
Required Columns FAILs when any required column is missing, and Type
Domain FAILs when `Type` is missing; the Binary Flags check however
never WARNs — it skips absent flag columns and reports PASS or FAIL
over the present ones only. -/
theorem missing_column_policy (df : DataFrame) (col : String) (rule : Rule) :
    (df.getCol col = none → (range_check_one df col rule).status = "WARN") ∧
    (df.getCol TARGET_COL = none → (check_failure_consistency df).status = "WARN") ∧
    ((∃ c ∈ REQUIRED_COLUMNS, df.getCol c = none) →
      (check_required_columns df).status = "FAIL") ∧
    (df.getCol "Type" = none → (check_type_domain df).status = "FAIL") ∧
    ((check_binary_flags df).status = "PASS" ∨ (check_binary_flags df).status = "FAIL") := by
  refine ⟨?_, ?_, ?_, ?_, ?_⟩
  · intro h
    simp [range_check_one, h]
  · intro h
    simp [check_failure_consistency, h]
  · rintro ⟨c, hc, hnone⟩
    rw [getCol_eq_none_iff] at hnone
    simp only [check_required_columns]
    rw [if_pos]
    intro hemp
    have : c ∈ REQUIRED_COLUMNS.filter (fun c => decide (c ∉ df.colNames)) := by
      rw [List.mem_filter]
      exact ⟨hc, by simpa using hnone⟩
    rw [hemp] at this
    exact List.not_mem_nil c this
  · intro h
    simp [check_type_domain, h]
  · simp only [check_binary_flags]
    split
    · exact Or.inr rfl
    · exact Or.inl rfl

/-- C2 witness: the amended statement instantiated on the table with no
columns. -/
theorem missing_column_policy_witness :
    (range_check_one noColsDf "Torque [Nm]" ⟨some 0, none, false⟩).status = "WARN" ∧
    (check_failure_consistency noColsDf).status = "WARN" ∧
    (check_required_columns noColsDf).status = "FAIL" ∧
    (check_type_domain noColsDf).status = "FAIL" ∧
    ((check_binary_flags noColsDf).status = "PASS" ∨
      (check_binary_flags noColsDf).status = "FAIL") := by
  have h := missing_column_policy noColsDf "Torque [Nm]" ⟨some 0, none, false⟩
  exact ⟨h.1 (by decide), h.2.1 (by decide), h.2.2.1 (by decide),
    h.2.2.2.1 (by decide), h.2.2.2.2⟩

theorem countP_cells_nums (s : List Cell) (p : ℚ → Bool) (f : Cell → Bool)
    (hnum : ∀ x, f (Cell.num x) = p x) (hstr : ∀ t, f (Cell.str t) = false)
    (hnull : f Cell.null = false) :
    s.countP f = (nums s).countP p := by
  induction s with
  | nil => rfl
  | cons c tl ih =>
    cases c with
    | num x => simp [nums, List.filterMap_cons, Cell.toNum, List.countP_cons, hnum, ih]
    | str t => simp [nums, List.filterMap_cons, Cell.toNum, List.countP_cons, hstr, ih]
    | null => simp [nums, List.filterMap_cons, Cell.toNum, List.countP_cons, hnull, ih]

theorem countP_cellLe (s : List Cell) (q : ℚ) :
    s.countP (fun c => cellLe c q) = (nums s).countP (fun x => decide (x ≤ q)) :=
  countP_cells_nums s _ _ (fun _ => rfl) (fun _ => rfl) rfl

theorem countP_cellLt (s : List Cell) (q : ℚ) :
    s.countP (fun c => cellLt c q) = (nums s).countP (fun x => decide (x < q)) :=
  countP_cells_nums s _ _ (fun _ => rfl) (fun _ => rfl) rfl

theorem countP_cellGt (s : List Cell) (q : ℚ) :
    s.countP (fun c => cellGt c q) = (nums s).countP (fun x => decide (x > q)) :=
  countP_cells_nums s _ _ (fun _ => rfl) (fun _ => rfl) rfl

/-- C3: for a present configured column, the Numeric Range sub-check
counts a minimum violation as `value ≤ min` under `strict_positive` and
as `value < min` otherwise, counts `value > max` as a maximum violation
when a maximum is configured, FAILs exactly when some violation count is
nonzero with the violated bounds and counts joined into one
`"; "`-separated message, and otherwise PASSes carrying the observed
minimum and maximum in its details. -/
theorem range_check_one_present_spec (df : DataFrame) (col : String) (rule : Rule)
    (s : List Cell) (hs : df.getCol col = some s)
    (minViol maxViol : ℕ) (msgs : List String)
    (hmin : minViol = match rule.min with
      | none => 0
      | some m =>
        if rule.strict_positive then (nums s).countP (fun x => decide (x ≤ m))
        else (nums s).countP (fun x => decide (x < m)))
    (hmax : maxViol = match rule.max with
      | none => 0
      | some m => (nums s).countP (fun x => decide (x > m)))
    (hmsgs : msgs =
      (match rule.min with
       | none => []
       | some m =>
         if 0 < minViol then
           if rule.strict_positive then [s!"{minViol} values <= {m}"]
           else [s!"{minViol} values < {m}"]
         else []) ++
      (match rule.max with
       | none => []
       | some m => if 0 < maxViol then [s!"{maxViol} values > {m}"] else [])) :
    ((range_check_one df col rule).status = "FAIL" ↔ 0 < minViol ∨ 0 < maxViol) ∧
    (0 < minViol ∨ 0 < maxViol →
      (range_check_one df col rule).message = String.intercalate "; " msgs) ∧
    (¬(0 < minViol ∨ 0 < maxViol) →
      (range_check_one df col rule).status = "PASS" ∧
      (range_check_one df col rule).details =
        [("min", Detail.optRat (seriesMin s)), ("max", Detail.optRat (seriesMax s))]) := by
  rcases rule with ⟨rmin, rmax, rsp⟩
  cases rmin <;> cases rmax <;> cases rsp <;>
    simp only [range_check_one, hs, countP_cellLe, countP_cellLt, countP_cellGt,
      gt_iff_lt] at hmin hmax hmsgs ⊢ <;>
    subst hmin <;> subst hmax <;> subst hmsgs <;>
    split_ifs <;>
    simp_all

/-- C3 witness: the strict-positive rule on the concrete column
`"c" = [1, 2]` has no violations, so the sub-check PASSes reporting
min 1 and max 2. -/
theorem range_check_one_present_spec_witness :
    (range_check_one twoRowDf "c" ⟨some 0, none, true⟩).status = "PASS" ∧
    (range_check_one twoRowDf "c" ⟨some 0, none, true⟩).details =
      [("min", Detail.optRat (some 1)), ("max", Detail.optRat (some 2))] := by
  have h := range_check_one_present_spec twoRowDf "c" ⟨some 0, none, true⟩
    [Cell.num 1, Cell.num 2] (by decide) 0 0 [] (by decide) (by decide) (by decide)
  have h2 := h.2.2 (by decide)
  exact ⟨h2.1, by rw [h2.2]; decide⟩

theorem sorted_getD_mono {s : List ℚ} (hs : List.Sorted (fun a b => a ≤ b) s)
    {i j : ℕ} (hij : i ≤ j) (hj : j < s.length) :
    s.getD i 0 ≤ s.getD j 0 := by
  have hi : i < s.length := lt_of_le_of_lt hij hj
  rw [List.getD_eq_getElem s 0 hi, List.getD_eq_getElem s 0 hj]
  rcases Nat.eq_or_lt_of_le hij with heq | hlt
  · subst heq
    exact le_rfl
  · have h := List.Sorted.rel_get_of_lt hs (a := ⟨i, hi⟩) (b := ⟨j, hj⟩)
      (Fin.mk_lt_mk.mpr hlt)
    simpa [List.get_eq_getElem] using h

theorem interpAt_lower {s : List ℚ} (hs : List.Sorted (fun a b => a ≤ b) s)
    {i : ℕ} (hi : i < s.length) {f : ℚ} (hf : 0 ≤ f) :
    s.getD i 0 ≤ interpAt s i f := by
  unfold interpAt
  split
  · have hd : s.getD i 0 ≤ s.getD (i + 1) 0 :=
      sorted_getD_mono hs (Nat.le_succ i) (by assumption)
    nlinarith
  · exact sorted_getD_mono hs (by omega) (by omega)

theorem interpAt_upper_of_lt {s : List ℚ} (hs : List.Sorted (fun a b => a ≤ b) s)
    {i : ℕ} (hi : i + 1 < s.length) {f : ℚ} (hf : f ≤ 1) :
    interpAt s i f ≤ s.getD (i + 1) 0 := by
  unfold interpAt
  rw [if_pos hi]
  have hd : s.getD i 0 ≤ s.getD (i + 1) 0 :=
    sorted_getD_mono hs (Nat.le_succ i) hi
  nlinarith

theorem interpAt_mono_frac {s : List ℚ} (hs : List.Sorted (fun a b => a ≤ b) s)
    {i : ℕ} {f1 f2 : ℚ} (h12 : f1 ≤ f2) :
    interpAt s i f1 ≤ interpAt s i f2 := by
  unfold interpAt
  split
  · have hd : s.getD i 0 ≤ s.getD (i + 1) 0 :=
      sorted_getD_mono hs (Nat.le_succ i) (by assumption)
    nlinarith
  · exact le_rfl

theorem interpAt_mono {s : List ℚ} (hs : List.Sorted (fun a b => a ≤ b) s)
    {i1 i2 : ℕ} {f1 f2 : ℚ} (hij : i1 ≤ i2) (hi2 : i2 < s.length)
    (_hf1lo : 0 ≤ f1) (hf1hi : f1 ≤ 1) (hf2lo : 0 ≤ f2)
    (heqf : i1 = i2 → f1 ≤ f2) :
    interpAt s i1 f1 ≤ interpAt s i2 f2 := by
  rcases Nat.eq_or_lt_of_le hij with heq | hlt
  · subst heq
    exact interpAt_mono_frac hs (heqf rfl)
  · have hi1 : i1 + 1 < s.length := by omega
    calc interpAt s i1 f1 ≤ s.getD (i1 + 1) 0 := interpAt_upper_of_lt hs hi1 hf1hi
      _ ≤ s.getD i2 0 := sorted_getD_mono hs (by omega) hi2
      _ ≤ interpAt s i2 f2 := interpAt_lower hs hi2 hf2lo

theorem quantileOfSorted_mono {s : List ℚ}
    (hs : List.Sorted (fun a b => a ≤ b) s) (hne : s ≠ [])
    {q1 q2 : ℚ} (h0 : 0 ≤ q1) (h12 : q1 ≤ q2) (h1 : q2 ≤ 1) :
    quantileOfSorted s q1 ≤ quantileOfSorted s q2 := by
  have hn : 1 ≤ s.length := List.length_pos.mpr hne
  have hnn : (0 : ℚ) ≤ (s.length : ℚ) - 1 := by
    have h : (1 : ℚ) ≤ (s.length : ℚ) := by exact_mod_cast hn
    linarith
  have hp1nonneg : 0 ≤ q1 * ((s.length : ℚ) - 1) := mul_nonneg h0 hnn
  have hp2nonneg : 0 ≤ q2 * ((s.length : ℚ) - 1) :=
    mul_nonneg (le_trans h0 h12) hnn
  have hple : q1 * ((s.length : ℚ) - 1) ≤ q2 * ((s.length : ℚ) - 1) :=
    mul_le_mul_of_nonneg_right h12 hnn
  have hp2le : q2 * ((s.length : ℚ) - 1) ≤ (s.length : ℚ) - 1 := by
    calc q2 * ((s.length : ℚ) - 1) ≤ 1 * ((s.length : ℚ) - 1) :=
        mul_le_mul_of_nonneg_right h1 hnn
      _ = (s.length : ℚ) - 1 := one_mul _
  have hf1 : (0 : ℤ) ≤ ⌊q1 * ((s.length : ℚ) - 1)⌋ :=
    Int.le_floor.mpr (by exact_mod_cast hp1nonneg)
  have hf2 : (0 : ℤ) ≤ ⌊q2 * ((s.length : ℚ) - 1)⌋ :=
    Int.le_floor.mpr (by exact_mod_cast hp2nonneg)
  have hf12 : ⌊q1 * ((s.length : ℚ) - 1)⌋ ≤ ⌊q2 * ((s.length : ℚ) - 1)⌋ :=
    Int.floor_le_floor hple
  have hcast : ((s.length : ℚ) - 1) = (((s.length : ℤ) - 1 : ℤ) : ℚ) := by
    push_cast
    ring
  have hf2top : ⌊q2 * ((s.length : ℚ) - 1)⌋ ≤ (s.length : ℤ) - 1 := by
    have h := Int.floor_le_floor hp2le
    have h2 : ⌊(s.length : ℚ) - 1⌋ = (s.length : ℤ) - 1 := by
      rw [hcast, Int.floor_intCast]
    omega
  have hi1cast : (((⌊q1 * ((s.length : ℚ) - 1)⌋).toNat : ℤ)) =
      ⌊q1 * ((s.length : ℚ) - 1)⌋ := Int.toNat_of_nonneg hf1
  have hi2cast : (((⌊q2 * ((s.length : ℚ) - 1)⌋).toNat : ℤ)) =
      ⌊q2 * ((s.length : ℚ) - 1)⌋ := Int.toNat_of_nonneg hf2
  have hi12 : (⌊q1 * ((s.length : ℚ) - 1)⌋).toNat ≤
      (⌊q2 * ((s.length : ℚ) - 1)⌋).toNat := by omega
  have hi2lt : (⌊q2 * ((s.length : ℚ) - 1)⌋).toNat < s.length := by omega
  have hfloor_le_1 : ((⌊q1 * ((s.length : ℚ) - 1)⌋ : ℚ)) ≤ q1 * ((s.length : ℚ) - 1) :=
    Int.floor_le _
  have hlt_floor_1 : q1 * ((s.length : ℚ) - 1) < (⌊q1 * ((s.length : ℚ) - 1)⌋ : ℚ) + 1 :=
    Int.lt_floor_add_one _
  have hfloor_le_2 : ((⌊q2 * ((s.length : ℚ) - 1)⌋ : ℚ)) ≤ q2 * ((s.length : ℚ) - 1) :=
    Int.floor_le _
  simp only [quantileOfSorted]
  apply interpAt_mono hs hi12 hi2lt
  · rw [← hi1cast] at hfloor_le_1
    push_cast at hfloor_le_1 ⊢
    linarith
  · rw [← hi1cast] at hlt_floor_1
    push_cast at hlt_floor_1 ⊢
    linarith
  · rw [← hi2cast] at hfloor_le_2
    push_cast at hfloor_le_2 ⊢
    linarith
  · intro heq
    rw [heq]
    linarith

theorem quantile_mono {xs : List ℚ} (hne : xs ≠ []) {q1 q2 : ℚ}
    (h0 : 0 ≤ q1) (h12 : q1 ≤ q2) (h1 : q2 ≤ 1) :
    quantile xs q1 ≤ quantile xs q2 := by
  have hsort : List.Sorted (fun a b => a ≤ b)
      (List.insertionSort (fun a b => a ≤ b) xs) :=
    List.sorted_insertionSort _ xs
  have hne' : List.insertionSort (fun a b => a ≤ b) xs ≠ [] := by
    intro h
    apply hne
    have hlen := List.length_insertionSort (fun a b => a ≤ b) xs
    rw [h] at hlen
    exact List.length_eq_zero.mp hlen.symm
  exact quantileOfSorted_mono hsort hne' h0 h12 h1

theorem countP_three_masks (s : List Cell) (lo hi : ℚ) :
    s.countP (fun c => cellLe c lo) +
      s.countP (fun c => !cellLe c lo && !cellGe c hi) +
      s.countP (fun c => cellGe c hi) =
    s.length + s.countP (fun c => cellLe c lo && cellGe c hi) := by
  induction s with
  | nil => simp
  | cons c tl ih =>
    simp only [List.countP_cons, List.length_cons]
    cases hl : cellLe c lo <;> cases hh : cellGe c hi <;>
      simp [hl, hh] <;> omega

/-- C4: for a present numeric column (with at least one numeric value)
and quantiles `0 ≤ q_low < q_high ≤ 1`, `compute_quantile_failure_rates`
yields `low_threshold ≤ high_threshold`, and the Low/Medium/High segment
counts sum to the row count plus the number of rows lying at both
thresholds simultaneously — so the sum is at least the row count, with
equality exactly when no row is double-counted. -/
theorem compute_quantile_failure_rates_spec (df : DataFrame) (column : String)
    (q_low q_high : ℚ) (s t : List Cell) (r : QuantileFailureRates)
    (hs : df.getCol column = some s) (ht : df.getCol TARGET_COL = some t)
    (hrow : s.length = df.nrows) (hnum : nums s ≠ [])
    (h0 : 0 ≤ q_low) (hlh : q_low < q_high) (h1 : q_high ≤ 1)
    (hr : compute_quantile_failure_rates df column q_low q_high = some r) :
    r.q_low_value ≤ r.q_high_value ∧
    (r.segments.map SegmentStats.count).sum =
      df.nrows + s.countP (fun c => cellLe c r.q_low_value && cellGe c r.q_high_value) ∧
    df.nrows ≤ (r.segments.map SegmentStats.count).sum := by
  simp only [compute_quantile_failure_rates, hs, ht, Option.bind_eq_bind,
    Option.some_bind, Option.some.injEq] at hr
  subst hr
  refine ⟨quantile_mono hnum h0 (le_of_lt hlh) h1, ?_, ?_⟩
  · simp only [segment_stats, List.map_cons, List.map_nil, List.sum_cons,
      List.sum_nil, Nat.add_zero]
    have h3 := countP_three_masks s (quantile (nums s) q_low) (quantile (nums s) q_high)
    omega
  · simp only [segment_stats, List.map_cons, List.map_nil, List.sum_cons,
      List.sum_nil, Nat.add_zero]
    have h3 := countP_three_masks s (quantile (nums s) q_low) (quantile (nums s) q_high)
    omega

/-- C4 witness: the segmentation instantiated on the concrete 2-row
table with quantiles 0 and 1. -/
theorem compute_quantile_failure_rates_spec_witness :
    qfrSample.q_low_value ≤ qfrSample.q_high_value ∧
    (qfrSample.segments.map SegmentStats.count).sum =
      twoRowDf.nrows +
        (List.countP (fun c => cellLe c qfrSample.q_low_value &&
          cellGe c qfrSample.q_high_value) [Cell.num 1, Cell.num 2]) ∧
    twoRowDf.nrows ≤ (qfrSample.segments.map SegmentStats.count).sum := by
  exact compute_quantile_failure_rates_spec twoRowDf "c" 0 1
    [Cell.num 1, Cell.num 2] [Cell.num 0, Cell.num 1] qfrSample
    (by decide) (by decide) (by decide) (by decide)
    (by norm_num) (by norm_num) (by norm_num) (by rfl)

/-- C5 counterexample: on the empty table that still has every flag
column, `compute_failure_mode_counts` raises `ZeroDivisionError`
(`none`): the `count / total_records * 100` division is unguarded, so
`pct_of_total` is not well-defined on every input. -/
theorem compute_failure_mode_counts_empty_raises :
    emptyFlagsDf.nrows = 0 ∧
    emptyFlagsDf.getCol TARGET_COL = some [] ∧
    (∀ m ∈ FAILURE_MODE_COLS, emptyFlagsDf.getCol m = some []) ∧
    compute_failure_mode_counts emptyFlagsDf = none := by decide

theorem mode_records_of_pos (df : DataFrame) (tf : ℚ) (modes : List String)
    (hpos : 0 < df.nrows) (hm : ∀ m ∈ modes, df.getCol m ≠ none) :
    ∃ recs, modes.mapM (mode_record df tf df.nrows) = some recs ∧
      recs.length = modes.length ∧
      ∀ r ∈ recs, (tf ≤ 0 → r.pct_of_failures = 0) ∧
        r.pct_of_total = (r.count : ℚ) / (df.nrows : ℚ) * 100 := by
  induction modes with
  | nil => exact ⟨[], rfl, rfl, by simp⟩
  | cons m ms ih =>
    obtain ⟨mcol, hmcol⟩ := Option.ne_none_iff_exists'.mp (hm m (by simp))
    obtain ⟨recs, hrecs, hlen, hprops⟩ := ih (fun x hx => hm x (by simp [hx]))
    have hne : ((df.nrows : ℚ)) ≠ 0 :=
      Nat.cast_ne_zero.mpr (Nat.pos_iff_ne_zero.mp hpos)
    refine ⟨({ failure_mode := m,
               count := ⌊sumNums mcol⌋,
               pct_of_failures :=
                 if tf > 0 then ((⌊sumNums mcol⌋ : ℚ)) / tf * 100 else 0,
               pct_of_total :=
                 ((⌊sumNums mcol⌋ : ℚ)) / (df.nrows : ℚ) * 100 } :: recs),
      ?_, ?_, ?_⟩
    · have hhead : mode_record df tf df.nrows m = some
          { failure_mode := m,
            count := ⌊sumNums mcol⌋,
            pct_of_failures :=
              if tf > 0 then ((⌊sumNums mcol⌋ : ℚ)) / tf * 100 else 0,
            pct_of_total :=
              ((⌊sumNums mcol⌋ : ℚ)) / (df.nrows : ℚ) * 100 } := by
        simp [mode_record, hmcol, pydiv, hne]
      rw [List.mapM_cons, hhead, hrecs]
      rfl
    · simp [hlen]
    · intro r hr
      rcases List.mem_cons.mp hr with rfl | hr'
      · refine ⟨?_, rfl⟩
        intro htf
        simp only []
        rw [if_neg]
        simpa using not_lt.mpr htf
      · exact hprops r hr'

/-- C5 (amended): the guarded divisions do default to 0.0 — the overall
failure rate is 0 on a zero-row table, and `pct_of_failures` is 0 when
there are no failures — and `pct_of_total = count / total_records × 100`
is well-defined whenever the table has at least one row; on a zero-row
table, however, `compute_failure_mode_counts` raises
`ZeroDivisionError` (`none`) because that division is unguarded. -/
theorem kpi_zero_division_policy (df : DataFrame) (t : List Cell)
    (ht : df.getCol TARGET_COL = some t)
    (hm : ∀ m ∈ FAILURE_MODE_COLS, df.getCol m ≠ none) :
    (df.nrows = 0 →
      (compute_overall_failure_rate df).map OverallFailureRate.failure_rate = some 0) ∧
    (df.nrows = 0 → compute_failure_mode_counts df = none) ∧
    (0 < df.nrows →
      ∃ recs, compute_failure_mode_counts df = some recs ∧
        recs.length = FAILURE_MODE_COLS.length ∧
        ∀ r ∈ recs, (sumNums t = 0 → r.pct_of_failures = 0) ∧
          r.pct_of_total = (r.count : ℚ) / (df.nrows : ℚ) * 100) := by
  refine ⟨?_, ?_, ?_⟩
  · intro h0
    simp [compute_overall_failure_rate, ht, h0]
  · intro h0
    obtain ⟨mcol, hmcol⟩ := Option.ne_none_iff_exists'.mp (hm "TWF" (by decide))
    have hhead : mode_record df (sumNums t) df.nrows "TWF" = none := by
      simp [mode_record, hmcol, pydiv, h0]
    simp only [compute_failure_mode_counts, ht, Option.bind_eq_bind,
      Option.some_bind, FAILURE_MODE_COLS]
    rw [List.mapM_cons, hhead]
    rfl
  · intro hpos
    obtain ⟨recs, hrecs, hlen, hprops⟩ :=
      mode_records_of_pos df (sumNums t) FAILURE_MODE_COLS hpos hm
    refine ⟨recs, ?_, hlen, ?_⟩
    · simp only [compute_failure_mode_counts, ht, Option.bind_eq_bind,
        Option.some_bind]
      exact hrecs
    · intro r hr
      exact ⟨fun hz => (hprops r hr).1 (le_of_eq hz), (hprops r hr).2⟩

/-- C5 witness: the amended statement instantiated on the 0-row table
(where the unguarded division raises) and on a 1-row table (where all
percentages are defined). -/
theorem kpi_zero_division_policy_witness :
    (compute_overall_failure_rate emptyFlagsDf).map OverallFailureRate.failure_rate = some 0 ∧
    compute_failure_mode_counts emptyFlagsDf = none ∧
    compute_failure_mode_counts oneRowFlagsDf = some modeRecsSample := by
  have h := kpi_zero_division_policy emptyFlagsDf [] (by decide) (by decide)
  have h' := kpi_zero_division_policy oneRowFlagsDf [Cell.num 0] (by decide) (by decide)
  obtain ⟨recs, hr, -, -⟩ := h'.2.2 (by decide)
  exact ⟨h.1 rfl, h.2.1 rfl, by rw [hr]; simp [modeRecsSample, hr]⟩

theorem colNames_setCol (df : DataFrame) (name : String) (vals : List Cell) :
    (setCol df name vals).colNames =
      if name ∈ df.colNames then df.colNames else df.colNames ++ [name] := by
  unfold setCol
  split
  · simp only [DataFrame.colNames, List.map_map]
    apply List.map_congr_left
    intro p _
    simp only [Function.comp_apply]
    split <;> rfl
  · simp [DataFrame.colNames]

theorem mem_colNames_dropCols (df : DataFrame) (rem : List String) (c : String) :
    c ∈ (dropCols df rem).colNames ↔ c ∈ df.colNames ∧ c ∉ rem := by
  simp only [dropCols, DataFrame.colNames, List.mem_map, List.mem_filter,
    decide_eq_true_eq]
  constructor
  · rintro ⟨p, ⟨hp, hnr⟩, rfl⟩
    exact ⟨⟨p, hp, rfl⟩, hnr⟩
  · rintro ⟨⟨p, hp, rfl⟩, hnr⟩
    exact ⟨p, ⟨hp, hnr⟩, rfl⟩

/-- C6: adding any column not in the required set leaves the Required
Columns check result unchanged (so a passing dataset keeps passing
and the status never flips to FAIL), while removing any nonempty set of
required columns from a dataset that has them all produces FAIL whose
`missing_columns` detail lists exactly the removed names. -/
theorem check_required_columns_frame (df : DataFrame) (c : String)
    (vals : List Cell) (rem : List String) :
    (c ∉ REQUIRED_COLUMNS →
      check_required_columns (setCol df c vals) = check_required_columns df) ∧
    (rem ≠ [] → (∀ x ∈ rem, x ∈ REQUIRED_COLUMNS) →
      (∀ x ∈ REQUIRED_COLUMNS, x ∈ df.colNames) →
      (check_required_columns (dropCols df rem)).status = "FAIL" ∧
      ∃ m, (check_required_columns (dropCols df rem)).details =
          [("missing_columns", Detail.strs m)] ∧
        ∀ x, x ∈ m ↔ x ∈ rem) := by
  constructor
  · intro hc
    have hfil : REQUIRED_COLUMNS.filter
        (fun x => decide (x ∉ (setCol df c vals).colNames)) =
        REQUIRED_COLUMNS.filter (fun x => decide (x ∉ df.colNames)) := by
      apply List.filter_congr
      intro x hx
      have hmem : x ∈ (setCol df c vals).colNames ↔ x ∈ df.colNames := by
        rw [colNames_setCol]
        split
        · exact Iff.rfl
        · simp only [List.mem_append, List.mem_singleton]
          constructor
          · rintro (h | rfl)
            · exact h
            · exact absurd hx hc
          · exact Or.inl
      simp [hmem]
    simp only [check_required_columns, hfil]
  · intro hne hsub hall
    have hmiss : ∀ x, x ∈ REQUIRED_COLUMNS.filter
        (fun x => decide (x ∉ (dropCols df rem).colNames)) ↔ x ∈ rem := by
      intro x
      rw [List.mem_filter]
      simp only [decide_eq_true_eq, mem_colNames_dropCols]
      constructor
      · rintro ⟨hxr, hnot⟩
        by_contra hxrem
        exact hnot ⟨hall x hxr, hxrem⟩
      · intro hxrem
        refine ⟨hsub x hxrem, ?_⟩
        rintro ⟨-, hnr⟩
        exact hnr hxrem
    have hnonempty : REQUIRED_COLUMNS.filter
        (fun x => decide (x ∉ (dropCols df rem).colNames)) ≠ [] := by
      obtain ⟨y, hy⟩ := List.exists_mem_of_ne_nil rem hne
      intro h
      have hmem := (hmiss y).mpr hy
      rw [h] at hmem
      exact List.not_mem_nil y hmem
    simp only [check_required_columns]
    rw [if_pos hnonempty]
    exact ⟨rfl, _, rfl, hmiss⟩

/-- C6 witness: adding the non-required column `"Extra"` to the full
table leaves the check unchanged; dropping `"Type"` makes it FAIL. -/
theorem check_required_columns_frame_witness :
    check_required_columns (setCol fullDf "Extra" []) = check_required_columns fullDf ∧
    (check_required_columns (dropCols fullDf ["Type"])).status = "FAIL" := by
  have h := check_required_columns_frame fullDf "Extra" [] ["Type"]
  exact ⟨h.1 (by decide), (h.2 (by decide) (by decide) (by decide)).1⟩

/-- C7: `compute_temp_delta_stats` returns the descriptive error dict —
not an exception — exactly when the derived temperature-delta column is
absent; with the delta and target columns present it returns the
statistics dicts. -/
theorem compute_temp_delta_stats_spec (df : DataFrame) :
    (df.getCol "Temp_Delta [K]" = none →
      compute_temp_delta_stats df = some (TempDeltaStats.error
        "Column \x27Temp_Delta [K]\x27 not found. Run preprocessing first.")) ∧
    (df.getCol "Temp_Delta [K]" ≠ none → df.getCol TARGET_COL ≠ none →
      (compute_temp_delta_stats df).map TempDeltaStats.isError = some false) := by
  constructor
  · intro h
    simp [compute_temp_delta_stats, h]
  · intro hd ht
    obtain ⟨dcol, hdcol⟩ := Option.ne_none_iff_exists'.mp hd
    obtain ⟨t, htcol⟩ := Option.ne_none_iff_exists'.mp ht
    simp [compute_temp_delta_stats, hdcol, htcol, TempDeltaStats.isError]

/-- C7 witness: a table without the delta column yields the error dict;
a table with it yields statistics. -/
theorem compute_temp_delta_stats_spec_witness :
    compute_temp_delta_stats tempDf = some (TempDeltaStats.error
      "Column \x27Temp_Delta [K]\x27 not found. Run preprocessing first.") ∧
    (compute_temp_delta_stats deltaDf).map TempDeltaStats.isError = some false := by
  have h1 := compute_temp_delta_stats_spec tempDf
  have h2 := compute_temp_delta_stats_spec deltaDf
  exact ⟨h1.1 (by decide), h2.2 (by decide) (by decide)⟩

/-- C8 counterexample: on a table whose `Type` column holds only the
unknown value `"X"`, the by-Type output still contains a group for
`"X"` — the NaN sort key places unknown groups last, it does not drop
them, so the output is not restricted to L, M and H. -/
theorem compute_failure_rate_by_type_keeps_unknown :
    (compute_failure_rate_by_type soloUnknownTypeDf).map
        (fun gs => gs.map TypeGroup.type) =
      some [Cell.str "X"] := by decide

theorem mem_map_insertionSort_iff {α β : Type} (r : α → α → Prop) [DecidableRel r]
    (l : List α) (f : α → β) (b : β) :
    b ∈ (List.insertionSort r l).map f ↔ b ∈ l.map f :=
  List.Perm.mem_iff ((List.perm_insertionSort r l).map f)

theorem mem_map_section {α β : Type} (l : List α) (g : α → β) (f : β → α)
    (h : ∀ k, f (g k) = k) (c : α) : c ∈ (l.map g).map f ↔ c ∈ l := by
  rw [List.map_map]
  rw [show (f ∘ g) = id from funext h, List.map_id]

/-- C8 (amended): for a present `Type` and target column the by-Type
output has exactly one group per distinct non-null observed `Type`
value — unknown values included, none dropped — ordered by the
`type_order` sort key, i.e. L, M, H first in that order and unknown
values last. -/
theorem compute_failure_rate_by_type_spec (df : DataFrame) (ty t : List Cell)
    (hty : df.getCol "Type" = some ty) (ht : df.getCol TARGET_COL = some t) :
    ∃ gs, compute_failure_rate_by_type df = some gs ∧
      (∀ c, c ∈ gs.map TypeGroup.type ↔ c ∈ ty ∧ c.isNull = false) ∧
      gs.Pairwise (fun a b => sortKeyVal a.type ≤ sortKeyVal b.type) := by
  simp only [compute_failure_rate_by_type, hty, ht, Option.bind_eq_bind,
    Option.some_bind]
  refine ⟨_, rfl, ?_, ?_⟩
  · intro c
    rw [mem_map_insertionSort_iff, mem_map_section _ _ _ (fun k => rfl)]
    rw [List.Perm.mem_iff (List.perm_insertionSort cellKeyLe _)]
    rw [List.mem_dedup, List.mem_filter]
    simp
  · exact List.sorted_insertionSort _ _

/-- C8 witness: the amended statement instantiated on the table with an
unknown `Type` value. -/
theorem compute_failure_rate_by_type_spec_witness :
    compute_failure_rate_by_type unknownTypeDf = some byTypeSample ∧
    Cell.str "X" ∈ byTypeSample.map TypeGroup.type ∧
    byTypeSample.Pairwise (fun a b => sortKeyVal a.type ≤ sortKeyVal b.type) := by
  obtain ⟨gs, hgs, hmem, hpair⟩ := compute_failure_rate_by_type_spec unknownTypeDf
    [Cell.str "X", Cell.str "L"] [Cell.num 1, Cell.num 0] (by decide) (by decide)
  have hsample : byTypeSample = gs := by
    unfold byTypeSample
    rw [hgs]
    rfl
  exact ⟨by rw [hsample]; exact hgs,
    by rw [hsample]; exact (hmem (Cell.str "X")).mpr ⟨by decide, rfl⟩,
    by rw [hsample]; exact hpair⟩

theorem find?_append_key (cols : List (String × List Cell)) (name : String)
    (vals : List Cell) (h : name ∉ cols.map Prod.fst) :
    (cols ++ [(name, vals)]).find? (fun p => decide (p.1 = name)) =
      some (name, vals) := by
  induction cols with
  | nil => simp
  | cons p ps ih =>
    simp only [List.map_cons, List.mem_cons] at h
    push_neg at h
    have hne : (decide (p.1 = name)) = false := by
      simpa using (Ne.symm h.1)
    simp only [List.cons_append, List.find?_cons, hne]
    exact ih h.2

theorem find?_append_other (cols : List (String × List Cell)) (name : String)
    (vals : List Cell) (c : String) (hc : c ≠ name) :
    (cols ++ [(name, vals)]).find? (fun p => decide (p.1 = c)) =
      cols.find? (fun p => decide (p.1 = c)) := by
  induction cols with
  | nil =>
    simp only [List.nil_append, List.find?_cons, List.find?_nil]
    have hne : (decide (name = c)) = false := by
      simpa using (Ne.symm hc)
    simp [hne]
  | cons p ps ih =>
    simp only [List.cons_append, List.find?_cons]
    cases hd : decide (p.1 = c) <;> simp [hd, ih]

/-- C9: with the two temperature columns present and the derived column
not yet present, `add_temp_delta` returns a new table equal to its input
plus exactly one new column `Temp_Delta [K]` whose value in every row is
process temperature minus air temperature; every pre-existing column is
unchanged (the model is pure, so the input table itself is untouched by
construction). -/
theorem add_temp_delta_spec (df : DataFrame) (proc air : List Cell)
    (hp : df.getCol "Process temperature [K]" = some proc)
    (ha : df.getCol "Air temperature [K]" = some air)
    (hd : "Temp_Delta [K]" ∉ df.colNames) :
    ∃ df', add_temp_delta df = some df' ∧
      df'.nrows = df.nrows ∧
      df'.colNames = df.colNames ++ ["Temp_Delta [K]"] ∧
      (∀ c, c ≠ "Temp_Delta [K]" → df'.getCol c = df.getCol c) ∧
      ∃ delta, df'.getCol "Temp_Delta [K]" = some delta ∧
        delta.length = min proc.length air.length ∧
        ∀ (i : ℕ) (a b : ℚ), proc[i]? = some (Cell.num a) →
          air[i]? = some (Cell.num b) →
          delta[i]? = some (Cell.num (a - b)) := by
  refine ⟨setCol df "Temp_Delta [K]" ((proc.zip air).map (fun p => cellSub p.1 p.2)),
    ?_, ?_, ?_, ?_,
    ⟨((proc.zip air).map (fun p => cellSub p.1 p.2)), ?_, ?_, ?_⟩⟩
  · simp [add_temp_delta, hp, ha]
  · simp [setCol, hd]
  · rw [colNames_setCol, if_neg hd]
  · intro c hc
    simp only [setCol, if_neg hd, DataFrame.getCol]
    rw [find?_append_other _ _ _ _ hc]
  · simp only [setCol, if_neg hd, DataFrame.getCol]
    rw [find?_append_key _ _ _ hd]
    rfl
  · simp [List.length_zip]
  · intro i a b hpi hai
    rw [List.getElem?_map]
    have hz : (proc.zip air)[i]? = some (Cell.num a, Cell.num b) :=
      List.getElem?_zip_eq_some.mpr ⟨hpi, hai⟩
    rw [hz]
    rfl

/-- C9 witness: adding the delta to the concrete 1-row table appends
exactly the column `Temp_Delta [K] = [10]` (310 − 300). -/
theorem add_temp_delta_spec_witness :
    add_temp_delta tempDf = some tempDeltaDf ∧
    tempDeltaDf.colNames = tempDf.colNames ++ ["Temp_Delta [K]"] ∧
    tempDeltaDf.getCol "Temp_Delta [K]" = some [Cell.num 10] := by
  obtain ⟨df', h1, -, h3, -, delta, h5, h6, h7⟩ := add_temp_delta_spec tempDf
    [Cell.num 310] [Cell.num 300] (by decide) (by decide) (by decide)
  have hsample : tempDeltaDf = df' := by
    unfold tempDeltaDf
    rw [h1]
    rfl
  have hlen : delta.length = 1 := by simpa using h6
  obtain ⟨d, rfl⟩ := List.length_eq_one.mp hlen
  have h70 := h7 0 310 300 rfl rfl
  simp only [List.getElem?_cons_zero, Option.some.injEq] at h70
  have hd : d = Cell.num 10 := by
    rw [h70]
    norm_num
  rw [hd] at h5
  exact ⟨by rw [hsample]; exact h1, by rw [hsample]; exact h3,
    by rw [hsample]; exact h5⟩

/-- C10: `categorize_by_quantiles` assigns every element exactly one
label, with the Low predicate taking precedence over High: an element is
`"Low"` iff it is ≤ the low threshold (even when it also reaches the
high threshold, as when the two thresholds coincide), `"High"` iff it is
above the low threshold and ≥ the high threshold, and `"Medium"`
otherwise — no element is ever labelled twice. -/
theorem categorize_by_quantiles_spec (series : List ℚ) (q_low q_high : ℚ)
    (i : ℕ) (x : ℚ) (hx : series[i]? = some x) :
    ∃ lab, (categorize_by_quantiles series q_low q_high)[i]? = some lab ∧
      (lab = "Low" ∨ lab = "High" ∨ lab = "Medium") ∧
      (lab = "Low" ↔ x ≤ quantile series q_low) ∧
      (lab = "High" ↔ ¬x ≤ quantile series q_low ∧ quantile series q_high ≤ x) ∧
      (lab = "Medium" ↔ ¬x ≤ quantile series q_low ∧ ¬quantile series q_high ≤ x) := by
  refine ⟨assign_category (quantile series q_low) (quantile series q_high) x,
    ?_, ?_, ?_, ?_, ?_⟩
  · simp [categorize_by_quantiles, List.getElem?_map, hx]
  · unfold assign_category
    split_ifs <;> simp
  · unfold assign_category
    split_ifs with h1 h2 <;> simp_all
  · unfold assign_category
    split_ifs with h1 h2 <;> simp_all
  · unfold assign_category
    split_ifs with h1 h2 <;> simp_all

/-- C10 witness: the labelling instantiated on the constant series
`[1, 1, 1]` with the default quantiles — the first element receives a
label. -/
theorem categorize_by_quantiles_spec_witness :
    ((categorize_by_quantiles [1, 1, 1] (1 / 10) (9 / 10))[0]?).isSome = true := by
  obtain ⟨lab, hlab, -, -, -, -⟩ :=
    categorize_by_quantiles_spec [1, 1, 1] (1 / 10) (9 / 10) 0 1 rfl
  rw [hlab]
  rfl
